import Mathlib

/-!
# NumberSensei — Session State Machine, shallow embedding

A shallow embedding of the session state machine of the NumberSensei
repository (`src/client/lib/game-context.tsx`), together with proofs of
the specification's claims about it.

Modelling conventions:

* Machine integers and timestamps (`Date.now()` milliseconds) become `Int`;
  attempt counts become `Nat`.
* The external collaborators (level generator, skill model, JSON
  serialisation) are not part of the core under verification; they are
  passed in as an `Env` record of arbitrary functions over abstract types
  `σ` (player stats), `μ` (skill metrics) and `η` (hint style), exactly as
  the core treats them: opaque values passed through.
* `setTimeout(() => completeLevel(b), 500)` becomes appending `b` to a
  `pending` queue in the machine state; a separate `fireStep` pops the
  queue head and runs `completeLevel` — the deferred completions of the
  source, made explicit.
* React state updates (`setGameState` etc.) become pure record updates on
  a combined machine state `Sys`.
* `AsyncStorage` becomes a `Store := String → Option String`; the
  reactive save effect and the mount-time load effect become pure
  functions over it.
-/

/-- Game modes, from the repository's theme constants
(`GameModeColors`: classic, depth, strategic, tactical, deus). -/
inductive GameMode where
  | classic | depth | strategic | tactical | deus
deriving Repr, DecidableEq

/-- Feedback attached to a guess: `correct`, `higher` or `lower`. -/
inductive Feedback where
  | correct | higher | lower
deriving Repr, DecidableEq

/-- One guess and its evaluation, as appended to `currentGuesses`.
`timestamp` is `Date.now()` at evaluation time. -/
structure GuessResult where
  guess : Int
  feedback : Feedback
  hint : Option String := none
  penalty : Option Rat := none
  timestamp : Int
deriving Repr, DecidableEq

/-- The value returned by the external `getHint` collaborator. -/
structure HintData where
  feedback : Feedback
  hint : Option String := none
  penalty : Option Rat := none
deriving Repr, DecidableEq

/-- Parameters of one generated level, produced by the external
`generateLevel`.  `η` is the (opaque) hint-style type. -/
structure LevelParams (η : Type) where
  gameMode : GameMode
  targetNumber : Int
  rangeMin : Int
  rangeMax : Int
  maxAttempts : Nat
  timeLimit : Option Nat := none
  hintStyle : η
  seed : Int
deriving Repr, DecidableEq

/-- Archival record of one completed attempt, appended to `levelHistory`. -/
structure LevelResult where
  levelNumber : Nat
  won : Bool
  attemptsUsed : Nat
  maxAttempts : Nat
  timeUsed : Int
  timeLimit : Option Nat
  accuracy : Rat
  gameMode : GameMode
  targetNumber : Int
  guesses : List GuessResult
  completedAt : Int
deriving Repr, DecidableEq

/-- The session's `GameState`, field for field from the source. -/
structure GameState (η : Type) where
  currentLevel : Option (LevelParams η)
  currentGuesses : List GuessResult
  isPlaying : Bool
  isPaused : Bool
  startTime : Option Int
  elapsedTime : Int
deriving Repr, DecidableEq

/-- `initialGameState` from the source. -/
def initialGameState {η : Type} : GameState η :=
  { currentLevel := none
    currentGuesses := []
    isPlaying := false
    isPaused := false
    startTime := none
    elapsedTime := 0 }

/-- The player profile (`initialProfile` carries its defaults). -/
structure PlayerProfile where
  displayName : String
  avatarId : Nat
  soundEnabled : Bool
  hapticsEnabled : Bool
deriving Repr, DecidableEq

/-- `initialProfile` from the source. -/
def initialProfile : PlayerProfile :=
  { displayName := "Player", avatarId := 0
    soundEnabled := true, hapticsEnabled := true }

/-- The external collaborators the session state machine calls:
level generator and skill model, typed over opaque stats `σ`,
metrics `μ` and hint style `η`.  The core only threads their values
through, so their behaviour is arbitrary here. -/
structure Env (σ μ η : Type) where
  generateLevel : Nat → μ → Option Int → LevelParams η
  getHint : Int → Int → η → Int → HintData
  createInitialStats : σ
  createInitialSkillMetrics : μ
  updateStatsWithResult : σ → LevelResult → σ
  calculateSkillMetrics : σ → List LevelResult → μ
  calculateLevelAccuracy : Nat → Nat → Int → Rat

/-- The whole in-memory machine state owned by `GameProvider`:
the `GameState` plus the sibling `useState` cells, and the queue of
scheduled (`setTimeout`) completions made explicit. -/
structure Sys (σ μ η : Type) where
  gameState : GameState η
  playerStats : σ
  skillMetrics : μ
  levelHistory : List LevelResult
  currentLevelNumber : Nat
  pending : List Bool
deriving Repr, DecidableEq

/-- The machine state at mount, before any persisted load. -/
def initSys {σ μ η : Type} (env : Env σ μ η) : Sys σ μ η :=
  { gameState := initialGameState
    playerStats := env.createInitialStats
    skillMetrics := env.createInitialSkillMetrics
    levelHistory := []
    currentLevelNumber := 1
    pending := [] }

/-- `startNewGame`: generate level 1 from current metrics, reset the level
counter and rebuild `GameState` wholesale, entering Active. -/
def startNewGame {σ μ η : Type} (env : Env σ μ η) (now : Int)
    (s : Sys σ μ η) : Sys σ μ η :=
  let newLevel := env.generateLevel 1 s.skillMetrics none
  { s with
    currentLevelNumber := 1
    gameState :=
      { currentLevel := some newLevel
        currentGuesses := []
        isPlaying := true
        isPaused := false
        startTime := some now
        elapsedTime := 0 } }

/-- `continueGame`: if a level exists and the session is not playing,
re-enter Active re-anchoring `startTime = now - elapsedTime * 1000`;
if no level exists, delegate to `startNewGame`; otherwise do nothing. -/
def continueGame {σ μ η : Type} (env : Env σ μ η) (now : Int)
    (s : Sys σ μ η) : Sys σ μ η :=
  match s.gameState.currentLevel with
  | some _ =>
      if s.gameState.isPlaying then s
      else
        { s with
          gameState :=
            { s.gameState with
              isPlaying := true
              isPaused := false
              startTime := some (now - s.gameState.elapsedTime * 1000) } }
  | none => startNewGame env now s

/-- The `LevelResult` snapshot `completeLevel` builds from the state. -/
def mkLevelResult {σ μ η : Type} (env : Env σ μ η) (now : Int)
    (s : Sys σ μ η) (lvl : LevelParams η) (won : Bool) : LevelResult :=
  { levelNumber := s.currentLevelNumber
    won := won
    attemptsUsed := s.gameState.currentGuesses.length
    maxAttempts := lvl.maxAttempts
    timeUsed := s.gameState.elapsedTime
    timeLimit := lvl.timeLimit
    accuracy := env.calculateLevelAccuracy s.gameState.currentGuesses.length
      lvl.maxAttempts (lvl.rangeMax - lvl.rangeMin + 1)
    gameMode := lvl.gameMode
    targetNumber := lvl.targetNumber
    guesses := s.gameState.currentGuesses
    completedAt := now }

/-- `completeLevel(won)`: no-op without a level; otherwise snapshot a
`LevelResult`, append it to history, update stats then metrics, stop the
timer, and on a win advance the counter and pre-generate the next level
(resetting guesses and elapsed time); on a loss keep the failed level. -/
def completeLevel {σ μ η : Type} (env : Env σ μ η) (now : Int) (won : Bool)
    (s : Sys σ μ η) : Sys σ μ η :=
  match s.gameState.currentLevel with
  | none => s
  | some lvl =>
      let result := mkLevelResult env now s lvl won
      let newHistory := s.levelHistory ++ [result]
      let newStats := env.updateStatsWithResult s.playerStats result
      let newMetrics := env.calculateSkillMetrics newStats newHistory
      if won then
        let nextLevel := env.generateLevel (s.currentLevelNumber + 1) newMetrics none
        { s with
          levelHistory := newHistory
          playerStats := newStats
          skillMetrics := newMetrics
          currentLevelNumber := s.currentLevelNumber + 1
          gameState :=
            { s.gameState with
              currentLevel := some nextLevel
              currentGuesses := []
              isPlaying := false
              startTime := none
              elapsedTime := 0 } }
      else
        { s with
          levelHistory := newHistory
          playerStats := newStats
          skillMetrics := newMetrics
          gameState :=
            { s.gameState with
              isPlaying := false
              startTime := none } }

/-- `makeGuess`: returns the new machine state and the `GuessResult`.
Guard: without a level or while not playing, return a synthetic `lower`
result and change nothing.  A correct guess appends a `correct` result and
schedules a win completion; a wrong guess appends the `getHint` entry and,
when the guess count has reached `maxAttempts`, schedules a loss. -/
def makeGuess {σ μ η : Type} (env : Env σ μ η) (now : Int) (guess : Int)
    (s : Sys σ μ η) : Sys σ μ η × GuessResult :=
  match s.gameState.currentLevel with
  | none => (s, { guess := guess, feedback := .lower, timestamp := now })
  | some lvl =>
      if s.gameState.isPlaying then
        let target := lvl.targetNumber
        if guess = target then
          let result : GuessResult :=
            { guess := guess, feedback := .correct, timestamp := now }
          ({ s with
             gameState :=
               { s.gameState with
                 currentGuesses := s.gameState.currentGuesses ++ [result] }
             pending := s.pending ++ [true] }, result)
        else
          let hintData := env.getHint guess target lvl.hintStyle
            ((lvl.maxAttempts : Int) - s.gameState.currentGuesses.length - 1)
          let result : GuessResult :=
            { guess := guess, feedback := hintData.feedback
              hint := hintData.hint, penalty := hintData.penalty
              timestamp := now }
          let newGuesses := s.gameState.currentGuesses ++ [result]
          ({ s with
             gameState := { s.gameState with currentGuesses := newGuesses }
             pending :=
               if lvl.maxAttempts ≤ newGuesses.length then s.pending ++ [false]
               else s.pending }, result)
      else (s, { guess := guess, feedback := .lower, timestamp := now })

/-- `pauseGame`: cancel the tick source and set `isPaused := true`
(unconditionally — the source has no playing check). -/
def pauseGame {σ μ η : Type} (s : Sys σ μ η) : Sys σ μ η :=
  { s with gameState := { s.gameState with isPaused := true } }

/-- `resumeGame`: clear `isPaused` and re-anchor `startTime`. -/
def resumeGame {σ μ η : Type} (now : Int) (s : Sys σ μ η) : Sys σ μ η :=
  { s with
    gameState :=
      { s.gameState with
        isPaused := false
        startTime := some (now - s.gameState.elapsedTime * 1000) } }

/-- `restartLevel`: regenerate the same level number with seed
`previousSeed + 1` and rebuild `GameState`, entering Active. -/
def restartLevel {σ μ η : Type} (env : Env σ μ η) (now : Int)
    (s : Sys σ μ η) : Sys σ μ η :=
  match s.gameState.currentLevel with
  | none => s
  | some lvl =>
      let newLevel := env.generateLevel s.currentLevelNumber s.skillMetrics
        (some (lvl.seed + 1))
      { s with
        gameState :=
          { currentLevel := some newLevel
            currentGuesses := []
            isPlaying := true
            isPaused := false
            startTime := some now
            elapsedTime := 0 } }

/-- `goToMainMenu`: cancel the tick source and clear both flags,
keeping `currentLevel` and `currentGuesses`. -/
def goToMainMenu {σ μ η : Type} (s : Sys σ μ η) : Sys σ μ η :=
  { s with
    gameState := { s.gameState with isPlaying := false, isPaused := false } }

/-- The in-memory half of `resetProgress`: stats, metrics, history, level
counter and `GameState` back to their initial values (the profile cell is
not reset; pending timeouts are not cancelled). -/
def resetProgressMem {σ μ η : Type} (env : Env σ μ η)
    (s : Sys σ μ η) : Sys σ μ η :=
  { gameState := initialGameState
    playerStats := env.createInitialStats
    skillMetrics := env.createInitialSkillMetrics
    levelHistory := []
    currentLevelNumber := 1
    pending := s.pending }

/-- One timer tick: while the interval is alive
(`isPlaying && !isPaused && startTime`), recompute
`elapsedTime = floor((now - startTime) / 1000)`. -/
def tickStep {σ μ η : Type} (now : Int) (s : Sys σ μ η) : Sys σ μ η :=
  if s.gameState.isPlaying ∧ s.gameState.isPaused = false ∧
      s.gameState.startTime.isSome then
    { s with
      gameState :=
        { s.gameState with
          elapsedTime := (now - s.gameState.startTime.getD now).fdiv 1000 } }
  else s

/-- Fire the oldest scheduled completion, if any: pop the head of the
`pending` queue and run `completeLevel` with it on the current state. -/
def fireStep {σ μ η : Type} (env : Env σ μ η) (now : Int)
    (s : Sys σ μ η) : Sys σ μ η :=
  match s.pending with
  | [] => s
  | b :: rest => completeLevel env now b { s with pending := rest }

/-! ## Persistence model -/

/-- The key-value store behind `AsyncStorage`. -/
def Store : Type := String → Option String

/-- `STORAGE_KEYS` from the source, as the list `Object.values` yields:
stats, metrics, history, profile, level number.  The saved-game snapshot
key is written as a separate literal in the source and is not here. -/
def STORAGE_KEYS : List String :=
  ["brain_cubes_stats", "brain_cubes_metrics", "brain_cubes_history",
   "brain_cubes_profile", "brain_cubes_level_number"]

/-- The literal key under which the in-progress `GameState` snapshot is
saved (`"brain_cubes_saved_game_state"` in the source). -/
def SAVED_GAME_KEY : String := "brain_cubes_saved_game_state"

/-- `AsyncStorage.multiRemove`: delete each listed key. -/
def multiRemove (keys : List String) (st : Store) : Store :=
  fun k => if k ∈ keys then none else st k

/-- The storage half of `resetProgress`:
`AsyncStorage.multiRemove(Object.values(STORAGE_KEYS))`. -/
def resetProgressStore (st : Store) : Store :=
  multiRemove STORAGE_KEYS st

/-- JSON encoding of the persisted values, abstract (external). -/
structure Serializer (σ μ η : Type) where
  encStats : σ → String
  encMetrics : μ → String
  encHistory : List LevelResult → String
  encProfile : PlayerProfile → String
  encGameState : GameState η → String

/-- The reactive save effect: after every state change it `multiSet`s the
five `STORAGE_KEYS` with the current values and then writes the
`GameState` snapshot under `SAVED_GAME_KEY` when a level is in progress,
or removes that key when `currentLevel` is null. -/
def saveData {σ μ η : Type} (ser : Serializer σ μ η) (profile : PlayerProfile)
    (s : Sys σ μ η) (st : Store) : Store :=
  let st1 : Store := fun k =>
    if k = "brain_cubes_stats" then some (ser.encStats s.playerStats)
    else if k = "brain_cubes_metrics" then some (ser.encMetrics s.skillMetrics)
    else if k = "brain_cubes_history" then some (ser.encHistory s.levelHistory)
    else if k = "brain_cubes_profile" then some (ser.encProfile profile)
    else if k = "brain_cubes_level_number" then
      some (toString s.currentLevelNumber)
    else st k
  match s.gameState.currentLevel with
  | some _ => fun k =>
      if k = SAVED_GAME_KEY then some (ser.encGameState s.gameState) else st1 k
  | none => fun k =>
      if k = SAVED_GAME_KEY then none else st1 k

/-! ## Load model

`loadData` reads six keys and applies them in source order inside a single
`try { ... } catch { ... }`: a `JSON.parse` failure anywhere jumps to the
catch, keeping whatever `set*` calls already ran.  A stored slot is
modelled as `Option (Except Unit A)`: absent, or present with its parse
outcome.  `parseInt` never throws, so the level-number slot is a plain
parsed value. -/

/-- The raw persisted data `loadData` reads, with parse outcomes. -/
structure StoredData (σ μ η : Type) where
  stats : Option (Except Unit σ)
  metrics : Option (Except Unit μ)
  history : Option (Except Unit (List LevelResult))
  profile : Option (Except Unit PlayerProfile)
  levelNum : Option Int
  savedState : Option (Except Unit (GameState η))

/-- The in-memory cells `loadData` writes. -/
structure Mem (σ μ η : Type) where
  playerStats : σ
  skillMetrics : μ
  levelHistory : List LevelResult
  profile : PlayerProfile
  currentLevelNumber : Int
  gameState : GameState η
deriving DecidableEq

/-- The cells' values before the load. -/
def initialMem {σ μ η : Type} (env : Env σ μ η) : Mem σ μ η :=
  { playerStats := env.createInitialStats
    skillMetrics := env.createInitialSkillMetrics
    levelHistory := []
    profile := initialProfile
    currentLevelNumber := 1
    gameState := initialGameState }

/-- Process one stored slot and continue with `k`: absent continues with
the cells unchanged, a parsed value applies `set` and continues, a parse
failure jumps to the catch — the load stops, keeping the cells as written
so far. -/
def loadSlot {A B : Type} (stored : Option (Except Unit A)) (acc : B)
    (set : A → B) (k : B → B) : B :=
  match stored with
  | none => k acc
  | some (.ok a) => k (set a)
  | some (.error _) => acc

/-- `loadData`: keys applied in source order (stats, metrics, history,
profile, level number, saved game state) inside one try block; a parse
failure anywhere keeps only what was set before it.  A restored snapshot
has `isPlaying` and `isPaused` forced to false. -/
def loadData {σ μ η : Type} (env : Env σ μ η) (d : StoredData σ μ η) :
    Mem σ μ η :=
  let m0 := initialMem env
  loadSlot d.stats m0 (fun v => { m0 with playerStats := v }) (fun m1 =>
  loadSlot d.metrics m1 (fun v => { m1 with skillMetrics := v }) (fun m2 =>
  loadSlot d.history m2 (fun v => { m2 with levelHistory := v }) (fun m3 =>
  loadSlot d.profile m3 (fun v => { m3 with profile := v }) (fun m4 =>
  let m5 := match d.levelNum with
    | some n => { m4 with currentLevelNumber := n }
    | none => m4
  loadSlot d.savedState m5 (fun v =>
    { m5 with gameState := { v with isPlaying := false, isPaused := false } })
    (fun m6 => m6)))))

/-- The value a stored slot yields when it is reached: the parsed value,
or the given default when the slot is absent or fails to parse. -/
def slotVal {A : Type} (stored : Option (Except Unit A)) (dflt : A) : A :=
  match stored with
  | some (.ok a) => a
  | _ => dflt

/-- Whether a stored slot is present but fails to parse. -/
def isParseError {A : Type} : Option (Except Unit A) → Bool
  | some (.error _) => true
  | _ => false

/-! ## Step relation and reachability -/

/-- One observable transition of the session machine: a user action, a
timer tick, or a scheduled completion firing. -/
inductive Step {σ μ η : Type} (env : Env σ μ η) :
    Sys σ μ η → Sys σ μ η → Prop where
  | start (now : Int) (s : Sys σ μ η) : Step env s (startNewGame env now s)
  | cont (now : Int) (s : Sys σ μ η) : Step env s (continueGame env now s)
  | guess (now g : Int) (s : Sys σ μ η) : Step env s (makeGuess env now g s).1
  | pause (s : Sys σ μ η) : Step env s (pauseGame s)
  | resume (now : Int) (s : Sys σ μ η) : Step env s (resumeGame now s)
  | restart (now : Int) (s : Sys σ μ η) : Step env s (restartLevel env now s)
  | menu (s : Sys σ μ η) : Step env s (goToMainMenu s)
  | reset (s : Sys σ μ η) : Step env s (resetProgressMem env s)
  | tick (now : Int) (s : Sys σ μ η) : Step env s (tickStep now s)
  | fire (now : Int) (s : Sys σ μ η) : Step env s (fireStep env now s)

/-- States reachable from the mount state through session operations. -/
def Reachable {σ μ η : Type} (env : Env σ μ η) (s : Sys σ μ η) : Prop :=
  Relation.ReflTransGen (Step env) (initSys env) s

/-! ## A concrete instantiation for counterexamples -/

/-- A fixed small level: target 5 in [1, 10], one attempt, seed 0. -/
def testLevel : LevelParams Unit :=
  { gameMode := .classic, targetNumber := 5, rangeMin := 1, rangeMax := 10
    maxAttempts := 1, timeLimit := none, hintStyle := (), seed := 0 }

/-- A concrete environment over trivial stats and metrics whose generator
always yields `testLevel` and whose hints always say `higher`. -/
def testEnv : Env Unit Unit Unit :=
  { generateLevel := fun _ _ _ => testLevel
    getHint := fun _ _ _ _ => { feedback := .higher }
    createInitialStats := ()
    createInitialSkillMetrics := ()
    updateStatsWithResult := fun _ _ => ()
    calculateSkillMetrics := fun _ _ => ()
    calculateLevelAccuracy := fun _ _ _ => 0 }

/-! ## Helper lemmas -/

/-- `makeGuess` only ever touches `currentGuesses` and the pending queue:
every other field of the machine state is left as it was. -/
lemma makeGuess_frame {σ μ η : Type} (env : Env σ μ η) (now g : Int)
    (s : Sys σ μ η) :
    (makeGuess env now g s).1.gameState.currentLevel = s.gameState.currentLevel
    ∧ (makeGuess env now g s).1.gameState.isPlaying = s.gameState.isPlaying
    ∧ (makeGuess env now g s).1.gameState.isPaused = s.gameState.isPaused
    ∧ (makeGuess env now g s).1.gameState.startTime = s.gameState.startTime
    ∧ (makeGuess env now g s).1.gameState.elapsedTime = s.gameState.elapsedTime
    ∧ (makeGuess env now g s).1.currentLevelNumber = s.currentLevelNumber
    ∧ (makeGuess env now g s).1.playerStats = s.playerStats
    ∧ (makeGuess env now g s).1.skillMetrics = s.skillMetrics
    ∧ (makeGuess env now g s).1.levelHistory = s.levelHistory := by
  unfold makeGuess
  rcases hl : s.gameState.currentLevel with _ | lvl <;> simp [hl]
  by_cases hp : s.gameState.isPlaying <;> simp [hp, hl]
  by_cases hg : g = lvl.targetNumber <;> simp [hg]

/-- Every step preserves the two structural invariants: a playing session
has a level, and an actively accruing session has a `startTime` anchor. -/
lemma step_preserves_invs {σ μ η : Type} {env : Env σ μ η} {s t : Sys σ μ η}
    (hstep : Step env s t)
    (h1 : s.gameState.isPlaying = true → s.gameState.currentLevel.isSome)
    (h2 : s.gameState.isPlaying = true → s.gameState.isPaused = false →
      s.gameState.startTime.isSome) :
    (t.gameState.isPlaying = true → t.gameState.currentLevel.isSome)
    ∧ (t.gameState.isPlaying = true → t.gameState.isPaused = false →
      t.gameState.startTime.isSome) := by
  cases hstep with
  | start now s => simp [startNewGame]
  | cont now s =>
      rcases hl : s.gameState.currentLevel with _ | lvl
      · simp [continueGame, hl, startNewGame]
      · by_cases hp : s.gameState.isPlaying
        · have heq : continueGame env now s = s := by
            simp [continueGame, hl, hp]
          rw [heq]; exact ⟨h1, h2⟩
        · simp [continueGame, hl, hp]
  | guess now g s =>
      obtain ⟨f1, f2, f3, f4, -⟩ := makeGuess_frame env now g s
      rw [f1, f2, f3, f4]
      exact ⟨h1, h2⟩
  | pause s => exact ⟨by simpa [pauseGame] using h1, by simp [pauseGame]⟩
  | resume now s => exact ⟨by simpa [resumeGame] using h1, by simp [resumeGame]⟩
  | restart now s =>
      rcases hl : s.gameState.currentLevel with _ | lvl
      · have heq : restartLevel env now s = s := by simp [restartLevel, hl]
        rw [heq]; exact ⟨h1, h2⟩
      · simp [restartLevel, hl]
  | menu s => simp [goToMainMenu]
  | reset s => simp [resetProgressMem, initialGameState]
  | tick now s =>
      unfold tickStep
      split <;> exact ⟨h1, h2⟩
  | fire now s =>
      rcases hp : s.pending with _ | ⟨b, rest⟩
      · have heq : fireStep env now s = s := by simp [fireStep, hp]
        rw [heq]; exact ⟨h1, h2⟩
      · rcases hl : s.gameState.currentLevel with _ | lvl
        · have hnp : s.gameState.isPlaying = false := by
            cases hb : s.gameState.isPlaying
            · rfl
            · have hx := h1 hb
              rw [hl] at hx
              simp at hx
          simp [fireStep, hp, completeLevel, hl, hnp]
        · cases b <;> simp [fireStep, hp, completeLevel, hl]

/-- In every reachable machine state, a playing session has a current
level, and a playing, unpaused session has a `startTime` anchor. -/
lemma reachable_invs {σ μ η : Type} {env : Env σ μ η} {s : Sys σ μ η}
    (h : Reachable env s) :
    (s.gameState.isPlaying = true → s.gameState.currentLevel.isSome)
    ∧ (s.gameState.isPlaying = true → s.gameState.isPaused = false →
      s.gameState.startTime.isSome) := by
  induction h with
  | refl => simp [initSys, initialGameState]
  | tail _ hstep ih => exact step_preserves_invs hstep ih.1 ih.2

/-! ## A concrete trace: losing a level, resuming it, guessing again -/

/-- After `startNewGame` at time 0: Active on `testLevel`, no guesses. -/
def traceActive : Sys Unit Unit Unit :=
  startNewGame testEnv 0 (initSys testEnv)

/-- After one wrong guess (3 against target 5): one guess recorded and,
since `maxAttempts = 1` is reached, a loss completion is scheduled. -/
def traceOneWrong : Sys Unit Unit Unit :=
  (makeGuess testEnv 1 3 traceActive).1

/-- After the scheduled loss completion fires: session stopped, the lost
level still current, the full guess list still in place. -/
def traceLossFired : Sys Unit Unit Unit :=
  fireStep testEnv 2 traceOneWrong

/-- After `continueGame` on the lost level: Active again, the exhausted
guess list carried along. -/
def traceResumedLost : Sys Unit Unit Unit :=
  continueGame testEnv 3 traceLossFired

/-- After one more wrong guess on the resumed lost level: two guesses
recorded against an attempt budget of one. -/
def traceOverflow : Sys Unit Unit Unit :=
  (makeGuess testEnv 4 4 traceResumedLost).1

/-- The trace above only uses session operations from the mount state. -/
lemma traceOverflow_reachable : Reachable testEnv traceOverflow :=
  Relation.ReflTransGen.tail
    (Relation.ReflTransGen.tail
      (Relation.ReflTransGen.tail
        (Relation.ReflTransGen.tail
          (Relation.ReflTransGen.single (Step.start 0 (initSys testEnv)))
          (Step.guess 1 3 traceActive))
        (Step.fire 2 traceOneWrong))
      (Step.cont 3 traceLossFired))
    (Step.guess 4 4 traceResumedLost)

/-- Pausing the fresh Active session. -/
def tracePaused : Sys Unit Unit Unit := pauseGame traceActive

/-! ## Claims -/

/-- C1 (counterexample): a reachable paused state — `currentLevel` set,
`isPlaying = true`, `isPaused = true` — is not Active, yet `makeGuess`
processes the guess: it appends a result (state mutates) and the returned
feedback is the hint's `higher`, not the synthetic `lower`. -/
theorem makeGuess_paused_mutates :
    Reachable testEnv tracePaused
    ∧ tracePaused.gameState.isPaused = true
    ∧ tracePaused.gameState.isPlaying = true
    ∧ tracePaused.gameState.currentLevel = some testLevel
    ∧ tracePaused.gameState.currentGuesses.length = 0
    ∧ (makeGuess testEnv 10 3 tracePaused).1.gameState.currentGuesses.length = 1
    ∧ (makeGuess testEnv 10 3 tracePaused).2.feedback = Feedback.higher := by
  refine ⟨?_, rfl, rfl, rfl, rfl, rfl, rfl⟩
  exact Relation.ReflTransGen.tail
    (Relation.ReflTransGen.single (Step.start 0 (initSys testEnv)))
    (Step.pause traceActive)

/-- C1 (amended): `makeGuess` is the non-mutating synthetic-`lower` no-op
exactly when there is no current level or the session is not playing; the
guard does not cover the paused-while-playing case, which is processed as
a normal guess. -/
theorem makeGuess_guard_spec {σ μ η : Type} (env : Env σ μ η) (now g : Int)
    (s : Sys σ μ η)
    (h : s.gameState.currentLevel = none ∨ s.gameState.isPlaying = false) :
    makeGuess env now g s =
      (s, { guess := g, feedback := .lower, hint := none, penalty := none,
            timestamp := now }) := by
  rcases h with h | h
  · simp [makeGuess, h]
  · rcases hl : s.gameState.currentLevel with _ | lvl <;>
      simp [makeGuess, hl, h]

/-- C1 (witness): at the mount state there is no level, and a guess is the
synthetic no-op. -/
theorem makeGuess_guard_spec_witness :
    ((initSys testEnv).gameState.currentLevel = none
      ∨ (initSys testEnv).gameState.isPlaying = false)
    ∧ makeGuess testEnv 7 3 (initSys testEnv) =
      (initSys testEnv,
       { guess := 3, feedback := .lower, hint := none, penalty := none,
         timestamp := 7 }) :=
  ⟨Or.inl rfl, makeGuess_guard_spec testEnv 7 3 (initSys testEnv) (Or.inl rfl)⟩

/-- C2 (code evaluated at the failing input): after losing a one-attempt
level, `continueGame` re-enters Active with the exhausted guess list and
`makeGuess` appends past the budget — a reachable state holds two guesses
against `maxAttempts = 1`, violating the claimed invariant
`currentGuesses.length <= currentLevel.maxAttempts`. -/
theorem guesses_exceed_maxAttempts_trace :
    Reachable testEnv traceOverflow
    ∧ traceOverflow.gameState.currentLevel = some testLevel
    ∧ testLevel.maxAttempts = 1
    ∧ traceOverflow.gameState.currentGuesses.length = 2 :=
  ⟨traceOverflow_reachable, rfl, rfl, rfl⟩

/-- C3 (counterexample): `pauseGame` on a fresh Active session leaves
`startTime` set while the timer is no longer accruing
(`isPaused = true`), refuting the claimed iff. -/
theorem pauseGame_keeps_startTime :
    Reachable testEnv tracePaused
    ∧ tracePaused.gameState.isPlaying = true
    ∧ tracePaused.gameState.isPaused = true
    ∧ tracePaused.gameState.startTime = some 0 := by
  refine ⟨?_, rfl, rfl, rfl⟩
  exact Relation.ReflTransGen.tail
    (Relation.ReflTransGen.single (Step.start 0 (initSys testEnv)))
    (Step.pause traceActive)

/-- C3 (amended): only the forward direction holds — in every reachable
state, an actively accruing timer (`isPlaying && !isPaused`) has a
non-null `startTime`; `pauseGame` and `goToMainMenu` leave a stale
`startTime` behind, so the converse fails. -/
theorem active_startTime_isSome {σ μ η : Type} (env : Env σ μ η)
    (s : Sys σ μ η) (h : Reachable env s)
    (hp : s.gameState.isPlaying = true) (hq : s.gameState.isPaused = false) :
    s.gameState.startTime.isSome :=
  (reachable_invs h).2 hp hq

/-- C3 (witness): the fresh Active session is reachable, accruing, and
anchored. -/
theorem active_startTime_isSome_witness :
    Reachable testEnv traceActive
    ∧ traceActive.gameState.isPlaying = true
    ∧ traceActive.gameState.isPaused = false
    ∧ traceActive.gameState.startTime.isSome :=
  ⟨Relation.ReflTransGen.single (Step.start 0 (initSys testEnv)), rfl, rfl,
   active_startTime_isSome testEnv traceActive
     (Relation.ReflTransGen.single (Step.start 0 (initSys testEnv))) rfl rfl⟩

/-- C7 (counterexample): pausing while not playing is not a no-op — at the
mount state (`isPlaying = false`, `isPaused = false`), `pauseGame` flips
`isPaused` to true. -/
theorem pauseGame_not_noop_when_idle :
    (initSys testEnv).gameState.isPlaying = false
    ∧ (initSys testEnv).gameState.isPaused = false
    ∧ (pauseGame (initSys testEnv)).gameState.isPaused = true :=
  ⟨rfl, rfl, rfl⟩

/-- C7 (amended): `pauseGame` unconditionally sets `isPaused := true` and
changes nothing else, whether or not the session is playing; it leaves the
state unchanged only when `isPaused` was already true. -/
theorem pauseGame_spec {σ μ η : Type} (s : Sys σ μ η) :
    pauseGame s = { s with gameState := { s.gameState with isPaused := true } }
    ∧ (s.gameState.isPaused = true → pauseGame s = s) := by
  obtain ⟨⟨cl, cg, ip, ipd, st, et⟩, ps, sm, lh, cn, pd⟩ := s
  refine ⟨rfl, fun h => ?_⟩
  have h2 : ipd = true := h
  subst h2
  rfl

/-- C7 (witness): on the already-paused state, `pauseGame` is a no-op. -/
theorem pauseGame_spec_witness :
    tracePaused.gameState.isPaused = true
    ∧ pauseGame tracePaused = tracePaused :=
  ⟨rfl, (pauseGame_spec tracePaused).2 rfl⟩

/-- C10: in every reachable state that is already playing (paused or not),
`continueGame` changes nothing — the first branch needs `!isPlaying` and
the `startNewGame` fallback needs a missing level, which a playing
reachable state always has. -/
theorem continueGame_playing_noop {σ μ η : Type} (env : Env σ μ η)
    (s : Sys σ μ η) (h : Reachable env s)
    (hp : s.gameState.isPlaying = true) (now : Int) :
    continueGame env now s = s := by
  have hl := (reachable_invs h).1 hp
  rcases hx : s.gameState.currentLevel with _ | lvl
  · rw [hx] at hl
    simp at hl
  · simp [continueGame, hx, hp]

/-- C10 (witness): the fresh Active session is reachable, playing, and
`continueGame` leaves it unchanged. -/
theorem continueGame_playing_noop_witness :
    Reachable testEnv traceActive
    ∧ traceActive.gameState.isPlaying = true
    ∧ continueGame testEnv 9 traceActive = traceActive :=
  ⟨Relation.ReflTransGen.single (Step.start 0 (initSys testEnv)), rfl,
   continueGame_playing_noop testEnv traceActive
     (Relation.ReflTransGen.single (Step.start 0 (initSys testEnv))) rfl 9⟩

/-- C4: with a level and not playing, `continueGame` enters Active with
`startTime = now - elapsedTime * 1000` and preserves `elapsedTime`,
`currentGuesses` and the level; with no level it delegates to
`startNewGame`; and the pause/menu round trips preserve `elapsedTime` and
`currentGuesses` exactly. -/
theorem continueGame_spec {σ μ η : Type} (env : Env σ μ η) (now : Int)
    (s : Sys σ μ η) :
    (s.gameState.currentLevel = none →
      continueGame env now s = startNewGame env now s)
    ∧ (s.gameState.currentLevel ≠ none → s.gameState.isPlaying = false →
        (continueGame env now s).gameState.isPlaying = true
        ∧ (continueGame env now s).gameState.isPaused = false
        ∧ (continueGame env now s).gameState.startTime
            = some (now - s.gameState.elapsedTime * 1000)
        ∧ (continueGame env now s).gameState.elapsedTime
            = s.gameState.elapsedTime
        ∧ (continueGame env now s).gameState.currentGuesses
            = s.gameState.currentGuesses
        ∧ (continueGame env now s).gameState.currentLevel
            = s.gameState.currentLevel)
    ∧ (s.gameState.currentLevel ≠ none →
        (continueGame env now (pauseGame s)).gameState.elapsedTime
            = s.gameState.elapsedTime
        ∧ (continueGame env now (pauseGame s)).gameState.currentGuesses
            = s.gameState.currentGuesses
        ∧ (continueGame env now (goToMainMenu s)).gameState.elapsedTime
            = s.gameState.elapsedTime
        ∧ (continueGame env now (goToMainMenu s)).gameState.currentGuesses
            = s.gameState.currentGuesses) := by
  refine ⟨fun hl => ?_, fun hl hp => ?_, fun hl => ?_⟩
  · simp [continueGame, hl]
  · rcases hx : s.gameState.currentLevel with _ | lvl
    · exact absurd hx hl
    · simp [continueGame, hx, hp]
  · rcases hx : s.gameState.currentLevel with _ | lvl
    · exact absurd hx hl
    · by_cases hp : s.gameState.isPlaying <;>
        simp [continueGame, pauseGame, goToMainMenu, hx, hp]

/-- C4 (witness): resuming the stopped (lost) session at time 3 enters
Active preserving elapsed time and guesses. -/
theorem continueGame_spec_witness :
    (traceLossFired.gameState.currentLevel ≠ none
      ∧ traceLossFired.gameState.isPlaying = false)
    ∧ (continueGame testEnv 3 traceLossFired).gameState.isPlaying = true
    ∧ (continueGame testEnv 3 traceLossFired).gameState.startTime
        = some (3 - traceLossFired.gameState.elapsedTime * 1000)
    ∧ (continueGame testEnv 3 traceLossFired).gameState.currentGuesses
        = traceLossFired.gameState.currentGuesses := by
  have h := (continueGame_spec testEnv 3 traceLossFired).2.1
    (by decide) rfl
  exact ⟨⟨by decide, rfl⟩, h.1, h.2.2.1, h.2.2.2.2.1⟩

/-- C5: with a level, `completeLevel(won)` appends the snapshot built from
the current guesses, elapsed time and level number to `levelHistory`,
feeds it through `updateStatsWithResult` and `calculateSkillMetrics`, and
stops the timer; a win advances the counter and installs the freshly
generated next level (clearing guesses), a loss keeps the failed level and
counter. -/
theorem completeLevel_spec {σ μ η : Type} (env : Env σ μ η) (now : Int)
    (won : Bool) (s : Sys σ μ η) (lvl : LevelParams η)
    (hl : s.gameState.currentLevel = some lvl) :
    (completeLevel env now won s).levelHistory
        = s.levelHistory ++ [mkLevelResult env now s lvl won]
    ∧ (completeLevel env now won s).playerStats
        = env.updateStatsWithResult s.playerStats (mkLevelResult env now s lvl won)
    ∧ (completeLevel env now won s).skillMetrics
        = env.calculateSkillMetrics
            (env.updateStatsWithResult s.playerStats
              (mkLevelResult env now s lvl won))
            (s.levelHistory ++ [mkLevelResult env now s lvl won])
    ∧ (completeLevel env now won s).gameState.isPlaying = false
    ∧ (completeLevel env now won s).gameState.startTime = none
    ∧ (won = true →
        (completeLevel env now won s).currentLevelNumber
            = s.currentLevelNumber + 1
        ∧ (completeLevel env now won s).gameState.currentLevel
            = some (env.generateLevel (s.currentLevelNumber + 1)
                (env.calculateSkillMetrics
                  (env.updateStatsWithResult s.playerStats
                    (mkLevelResult env now s lvl won))
                  (s.levelHistory ++ [mkLevelResult env now s lvl won])) none)
        ∧ (completeLevel env now won s).gameState.currentGuesses = [])
    ∧ (won = false →
        (completeLevel env now won s).gameState.currentLevel = some lvl
        ∧ (completeLevel env now won s).currentLevelNumber
            = s.currentLevelNumber
        ∧ (completeLevel env now won s).gameState.currentGuesses
            = s.gameState.currentGuesses) := by
  cases won <;> simp [completeLevel, hl]

/-- C5 (witness): completing the fresh Active session as a win records the
snapshot and advances to level 2. -/
theorem completeLevel_spec_witness :
    traceActive.gameState.currentLevel = some testLevel
    ∧ (completeLevel testEnv 5 true traceActive).levelHistory
        = traceActive.levelHistory
          ++ [mkLevelResult testEnv 5 traceActive testLevel true]
    ∧ (completeLevel testEnv 5 true traceActive).gameState.isPlaying = false
    ∧ (completeLevel testEnv 5 true traceActive).gameState.startTime = none
    ∧ (completeLevel testEnv 5 true traceActive).currentLevelNumber
        = traceActive.currentLevelNumber + 1 := by
  have h := completeLevel_spec testEnv 5 true traceActive testLevel rfl
  exact ⟨rfl, h.1, h.2.2.2.1, h.2.2.2.2.1, (h.2.2.2.2.2.1 rfl).1⟩

/-- C6: in any playing state with a level, guessing exactly
`targetNumber` returns a `correct` result, appends it to
`currentGuesses`, and schedules a win completion — with no condition on
how many attempts remain. -/
theorem makeGuess_correct_spec {σ μ η : Type} (env : Env σ μ η)
    (now g : Int) (s : Sys σ μ η) (lvl : LevelParams η)
    (hl : s.gameState.currentLevel = some lvl)
    (hp : s.gameState.isPlaying = true)
    (hg : g = lvl.targetNumber) :
    (makeGuess env now g s).2
        = { guess := g, feedback := .correct, hint := none, penalty := none,
            timestamp := now }
    ∧ (makeGuess env now g s).1.gameState.currentGuesses
        = s.gameState.currentGuesses ++ [(makeGuess env now g s).2]
    ∧ (makeGuess env now g s).1.pending = s.pending ++ [true] := by
  simp [makeGuess, hl, hp, hg]

/-- C6 (witness): guessing the target 5 on the fresh Active session yields
`correct`, appends it, and schedules the win. -/
theorem makeGuess_correct_spec_witness :
    (traceActive.gameState.currentLevel = some testLevel
      ∧ traceActive.gameState.isPlaying = true
      ∧ (5 : Int) = testLevel.targetNumber)
    ∧ (makeGuess testEnv 8 5 traceActive).2
        = { guess := 5, feedback := .correct, hint := none, penalty := none,
            timestamp := 8 }
    ∧ (makeGuess testEnv 8 5 traceActive).1.pending
        = traceActive.pending ++ [true] := by
  have h := makeGuess_correct_spec testEnv 8 5 traceActive testLevel rfl rfl rfl
  exact ⟨⟨rfl, rfl, rfl⟩, h.1, h.2.2⟩

/-! ## Concrete data for the persistence claims -/

/-- An environment over `Nat` stats and metrics, so loaded values are
distinguishable from their defaults. -/
def natEnv : Env Nat Nat Unit :=
  { generateLevel := fun _ _ _ => testLevel
    getHint := fun _ _ _ _ => { feedback := .higher }
    createInitialStats := 0
    createInitialSkillMetrics := 0
    updateStatsWithResult := fun n _ => n + 1
    calculateSkillMetrics := fun _ _ => 0
    calculateLevelAccuracy := fun _ _ _ => 0 }

/-- A sample archival result used as stored history content. -/
def sampleResult : LevelResult :=
  { levelNumber := 1, won := true, attemptsUsed := 2, maxAttempts := 6
    timeUsed := 10, timeLimit := none, accuracy := 1, gameMode := .classic
    targetNumber := 42, guesses := [], completedAt := 0 }

/-- Stored data in which only the metrics blob is corrupt: stats parse to
7, history parses to one result, a level number 3 is present. -/
def corruptMetricsData : StoredData Nat Nat Unit :=
  { stats := some (.ok 7), metrics := some (.error ())
    history := some (.ok [sampleResult]), profile := none
    levelNum := some 3, savedState := none }

/-- A store holding only the saved-game snapshot key. -/
def snapshotOnlyStore : Store :=
  fun k => if k = SAVED_GAME_KEY then some "x" else none

/-- A trivial serializer over the `Nat` environment. -/
def natSerializer : Serializer Nat Nat Unit :=
  { encStats := fun n => toString n
    encMetrics := fun n => toString n
    encHistory := fun _ => "[]"
    encProfile := fun _ => "{}"
    encGameState := fun _ => "{}" }

/-- C8 (counterexample): with a corrupt metrics blob, a parseable history
blob and a present level number, the load keeps the stats (read before the
failure) but leaves history and the level counter at their defaults — the
single try/catch aborts the remaining keys. -/
theorem loadData_aborts_later_keys :
    corruptMetricsData.metrics = some (.error ())
    ∧ corruptMetricsData.history = some (.ok [sampleResult])
    ∧ corruptMetricsData.levelNum = some 3
    ∧ (loadData natEnv corruptMetricsData).playerStats = 7
    ∧ (loadData natEnv corruptMetricsData).levelHistory = []
    ∧ (loadData natEnv corruptMetricsData).currentLevelNumber = 1 :=
  ⟨rfl, rfl, rfl, rfl, rfl, rfl⟩

/-- C8 (amended): the load is sequential with one try/catch — each cell
ends up loaded exactly when no earlier key (in the order stats, metrics,
history, profile, level number, saved game state) failed to parse;
a parse failure leaves its own key and every later key at the default,
while earlier keys keep their loaded values. -/
theorem loadData_spec {σ μ η : Type} (env : Env σ μ η)
    (d : StoredData σ μ η) :
    (loadData env d).playerStats = slotVal d.stats env.createInitialStats
    ∧ (loadData env d).skillMetrics =
        (if isParseError d.stats then env.createInitialSkillMetrics
         else slotVal d.metrics env.createInitialSkillMetrics)
    ∧ (loadData env d).levelHistory =
        (if isParseError d.stats || isParseError d.metrics then []
         else slotVal d.history [])
    ∧ (loadData env d).profile =
        (if isParseError d.stats || isParseError d.metrics
            || isParseError d.history then initialProfile
         else slotVal d.profile initialProfile)
    ∧ (loadData env d).currentLevelNumber =
        (if isParseError d.stats || isParseError d.metrics
            || isParseError d.history || isParseError d.profile then 1
         else d.levelNum.getD 1)
    ∧ (loadData env d).gameState =
        (if isParseError d.stats || isParseError d.metrics
            || isParseError d.history || isParseError d.profile
         then initialGameState
         else match d.savedState with
           | some (.ok v) => { v with isPlaying := false, isPaused := false }
           | _ => (initialGameState : GameState η)) := by
  obtain ⟨st, me, hi, pr, ln, sv⟩ := d
  rcases st with _ | (v1 | e1) <;>
    rcases me with _ | (v2 | e2) <;>
      rcases hi with _ | (v3 | e3) <;>
        rcases pr with _ | (v4 | e4) <;>
          rcases ln with _ | n <;>
            rcases sv with _ | (v6 | e6) <;>
              simp [loadData, loadSlot, slotVal, isParseError, initialMem]

/-- C9 (counterexample): `resetProgress` removes only the five
`STORAGE_KEYS`; the saved-game snapshot key is not among them, so a store
holding a snapshot still holds it after the removal. -/
theorem resetProgress_misses_saved_game_key :
    snapshotOnlyStore SAVED_GAME_KEY = some "x"
    ∧ resetProgressStore snapshotOnlyStore SAVED_GAME_KEY = some "x"
    ∧ SAVED_GAME_KEY ∉ STORAGE_KEYS := by
  refine ⟨rfl, ?_, by decide⟩
  show (if SAVED_GAME_KEY ∈ STORAGE_KEYS then none
        else snapshotOnlyStore SAVED_GAME_KEY) = some "x"
  rw [if_neg (by decide)]
  rfl

/-- C9 (amended): `resetProgress` reinitializes the in-memory stats,
metrics, history, level counter (to 1) and `GameState`, and removes the
five `STORAGE_KEYS` from storage; the saved-game snapshot key is left
untouched by the removal and is cleared only by the subsequent save
effect, because the reset `GameState` has no current level. -/
theorem resetProgress_spec {σ μ η : Type} (env : Env σ μ η)
    (ser : Serializer σ μ η) (profile : PlayerProfile)
    (s : Sys σ μ η) (st : Store) :
    (resetProgressMem env s).gameState = initialGameState
    ∧ (resetProgressMem env s).playerStats = env.createInitialStats
    ∧ (resetProgressMem env s).skillMetrics = env.createInitialSkillMetrics
    ∧ (resetProgressMem env s).levelHistory = []
    ∧ (resetProgressMem env s).currentLevelNumber = 1
    ∧ (∀ k ∈ STORAGE_KEYS, resetProgressStore st k = none)
    ∧ resetProgressStore st SAVED_GAME_KEY = st SAVED_GAME_KEY
    ∧ saveData ser profile (resetProgressMem env s)
        (resetProgressStore st) SAVED_GAME_KEY = none := by
  refine ⟨rfl, rfl, rfl, rfl, rfl, fun k hk => ?_, ?_, ?_⟩
  · show (if k ∈ STORAGE_KEYS then none else st k) = none
    rw [if_pos hk]
  · show (if SAVED_GAME_KEY ∈ STORAGE_KEYS then none
          else st SAVED_GAME_KEY) = st SAVED_GAME_KEY
    rw [if_neg (by decide)]
  · simp [saveData, resetProgressMem, initialGameState]

/-- C9 (witness): the reset applied at a concrete environment, serializer
and store: the stats key is removed, and the save effect that follows the
reset leaves no snapshot key. -/
theorem resetProgress_spec_witness :
    ("brain_cubes_stats" ∈ STORAGE_KEYS
      ∧ resetProgressStore snapshotOnlyStore "brain_cubes_stats" = none)
    ∧ saveData natSerializer initialProfile
        (resetProgressMem natEnv (initSys natEnv))
        (resetProgressStore snapshotOnlyStore) SAVED_GAME_KEY = none :=
  ⟨⟨by decide,
    (resetProgress_spec natEnv natSerializer initialProfile (initSys natEnv)
      snapshotOnlyStore).2.2.2.2.2.1 "brain_cubes_stats" (by decide)⟩,
   (resetProgress_spec natEnv natSerializer initialProfile (initSys natEnv)
      snapshotOnlyStore).2.2.2.2.2.2.2⟩
